import Mathlib

/-!
Shallow embedding of the rdbg command layer:
  * `src/src/commands/mod.rs` — the `Command` table and the handler functions
    `command_continue`, `command_break`, `command_print`, `command_memory`,
    `command_stepi`;
  * `src/src/bin/rdbg/interpreter/command_interpreter.rs` — the
    `CommandInterpreter` REPL glue (`new`, `handle_command`, `command_help`,
    `handle_unknown_command`, and the per-line body of `read_line`).

The `Debugger` engine itself (`rdbg_core::core::debugger`), the `Address`
type alias and the `Register` enum live outside the provided sources, so they
are modelled from the spec: the engine is an abstract state type `D` together
with a record of engine operations (`DebuggerApi`), and every handler is
instrumented with the list of engine operations it invokes (`trace`) and the
lines it prints with `println!` (`output`).  A Rust panic (an `unwrap` on a
failed parse, an out-of-bounds index `args[i]`) is modelled as `status = none`.
Log-crate macros (`info!`, `error!`, `debug!`) are not presentation output and
are not modelled.
-/

namespace Rdbg

/-- Rust `char::to_digit(radix)`: digit value of `c` in base `r`, `none` if
`c` is not a digit of that base. -/
def digitValue (r : Nat) (c : Char) : Option Nat :=
  let v : Option Nat :=
    if '0' ≤ c ∧ c ≤ '9' then some (c.toNat - '0'.toNat)
    else if 'a' ≤ c ∧ c ≤ 'z' then some (c.toNat - 'a'.toNat + 10)
    else if 'A' ≤ c ∧ c ≤ 'Z' then some (c.toNat - 'A'.toNat + 10)
    else none
  match v with
  | some d => if d < r then some d else none
  | none => none

/-- Accumulate a digit string in base `r`; `none` as soon as one character is
not a digit of base `r`. -/
def parseDigits (r : Nat) (cs : List Char) : Option Nat :=
  cs.foldl (fun acc c => acc.bind fun a => (digitValue r c).map fun d => a * r + d)
    (some 0)

/-- Modelled from the spec: `Address` is an "integral value identifying a
location in the tracee's virtual address space; width must match the target's
pointer width" — a 64-bit unsigned integer, embedded as a `Nat` below `2^64`.
`u64_from_str_radix r s` is Rust's `u64::from_str_radix(s, r)`: an optional
sign followed by one or more digits of base `r`; a `-` sign is only accepted
for the value zero; values outside `u64` overflow to `Err` (`none`). -/
def u64_from_str_radix (r : Nat) (s : String) : Option Nat :=
  match s.data with
  | [] => none
  | '+' :: rest =>
    if rest = [] then none
    else (parseDigits r rest).bind fun v => if v < 2 ^ 64 then some v else none
  | '-' :: rest =>
    if rest = [] then none
    else (parseDigits r rest).bind fun v => if v = 0 then some 0 else none
  | cs => (parseDigits r cs).bind fun v => if v < 2 ^ 64 then some v else none

/-- Rust `u64::from_str` (= `Address::from_str` in `command_memory`): base-10
parse of a `u64`. -/
def u64_from_str (s : String) : Option Nat :=
  u64_from_str_radix 10 s

/-- Rust `i64::from_str`: optional sign, one or more base-10 digits, value in
`[-2^63, 2^63 - 1]`. -/
def i64_from_str (s : String) : Option Int :=
  match s.data with
  | [] => none
  | '+' :: rest =>
    if rest = [] then none
    else (parseDigits 10 rest).bind fun v =>
      if v < 2 ^ 63 then some (v : Int) else none
  | '-' :: rest =>
    if rest = [] then none
    else (parseDigits 10 rest).bind fun v =>
      if v ≤ 2 ^ 63 then some (-(v : Int)) else none
  | cs => (parseDigits 10 cs).bind fun v =>
    if v < 2 ^ 63 then some (v : Int) else none

/-- Modelled from the spec: `Register` is a "closed enumeration of
architecture-specific logical registers"; the command layer only names `Rip`,
the instruction pointer. -/
inductive Register where
  | Rip
  | Rsp
  | Rbp
  | Rax
  deriving DecidableEq, Repr

/-- One engine (`Debugger`) operation, as invoked by a command handler. -/
inductive EngineOp where
  | continue_execution
  | set_breakpoint_at (address : Nat)
  | get_register_value (r : Register)
  | read_memory (address : Nat)
  | write_memory (address : Nat) (value : Int)
  | single_step_instruction_with_breakpoints
  deriving DecidableEq, Repr

/-- Modelled from the spec: the engine behind the command contract of §6.
`D` is the abstract `Debugger` session state; each field is one engine
operation.  `read_memory` returns `none` for an engine-side `Err` (the
handler `unwrap`s it); the results of the mutating operations are ignored by
the handlers, so they are modelled as plain state transformers. -/
structure DebuggerApi (D : Type) where
  continue_execution : D → D
  set_breakpoint_at : Nat → D → D
  get_register_value : Register → D → Nat
  read_memory : Nat → D → Option Nat
  write_memory : Nat → Int → D → D
  single_step_instruction_with_breakpoints : D → D

/-- The observable outcome of running one handler:
`status = some s` models `return s`, `status = none` models a Rust panic;
`dbg` is the debugger state after the handler (the state reached before the
panic, when it panics); `trace` lists the engine operations invoked, in
order; `output` lists the `println!` lines, in order. -/
structure HandlerResult (D : Type) where
  status : Option Int
  dbg : D
  trace : List EngineOp
  output : List String
  deriving Repr

/-- Rust `format!("{:#x}", v)`: `0x` followed by lowercase hex digits. -/
def hexFormat (v : Nat) : String :=
  "0x" ++ String.mk (Nat.toDigits 16 v)

/-- Rust `{:?}` on a `String` without escapable characters: surrounding
quotes. -/
def quoteDebug (s : String) : String :=
  "\"" ++ s ++ "\""

/-- `command_continue` (commands/mod.rs:99-103): calls
`dbg.continue_execution()` and returns 0. -/
def command_continue {D : Type} (api : DebuggerApi D) (_args : List String)
    (d : D) : HandlerResult D :=
  { status := some 0
    dbg := api.continue_execution d
    trace := [EngineOp.continue_execution]
    output := [] }

/-- `command_break` (commands/mod.rs:105-115): with no argument, logs an
error and returns 1; otherwise `Address::from_str_radix(args[0], 16).unwrap()`
(panic on parse failure), then `dbg.set_breakpoint_at(address)` and 0. -/
def command_break {D : Type} (api : DebuggerApi D) (args : List String)
    (d : D) : HandlerResult D :=
  match args with
  | [] => { status := some 1, dbg := d, trace := [], output := [] }
  | a0 :: _ =>
    match u64_from_str_radix 16 a0 with
    | none => { status := none, dbg := d, trace := [], output := [] }
    | some address =>
      { status := some 0
        dbg := api.set_breakpoint_at address d
        trace := [EngineOp.set_breakpoint_at address]
        output := [] }

/-- `command_print` (commands/mod.rs:117-120): prints
`RIP: {:?}` of `format!("{:#x}", dbg.get_register_value(Register::Rip))` and
returns 0. -/
def command_print {D : Type} (api : DebuggerApi D) (_args : List String)
    (d : D) : HandlerResult D :=
  { status := some 0
    dbg := d
    trace := [EngineOp.get_register_value Register.Rip]
    output := ["RIP: " ++ quoteDebug (hexFormat (api.get_register_value Register.Rip d))] }

/-- `command_memory` (commands/mod.rs:122-132).  The source is two
consecutive `if`s on `args[0]`; since `"read" ≠ "write"` they are exclusive
and are rendered as `if / else if / else`.  `args[0]`, `args[1]`, `args[2]`
panic when absent; both parses and the `read_memory` result are `unwrap`ed
(panic on failure); every non-panicking path returns 0. -/
def command_memory {D : Type} (api : DebuggerApi D) (args : List String)
    (d : D) : HandlerResult D :=
  match args with
  | [] => { status := none, dbg := d, trace := [], output := [] }
  | a0 :: rest =>
    if a0 = "read" then
      match rest with
      | [] => { status := none, dbg := d, trace := [], output := [] }
      | t :: _ =>
        match u64_from_str t with
        | none => { status := none, dbg := d, trace := [], output := [] }
        | some address =>
          match api.read_memory address d with
          | none =>
            { status := none, dbg := d
              trace := [EngineOp.read_memory address], output := [] }
          | some v =>
            { status := some 0, dbg := d
              trace := [EngineOp.read_memory address]
              output := [quoteDebug (hexFormat v)] }
    else if a0 = "write" then
      match rest with
      | [] => { status := none, dbg := d, trace := [], output := [] }
      | t1 :: rest2 =>
        match u64_from_str t1 with
        | none => { status := none, dbg := d, trace := [], output := [] }
        | some address =>
          match rest2 with
          | [] => { status := none, dbg := d, trace := [], output := [] }
          | t2 :: _ =>
            match i64_from_str t2 with
            | none => { status := none, dbg := d, trace := [], output := [] }
            | some v =>
              { status := some 0
                dbg := api.write_memory address v d
                trace := [EngineOp.write_memory address v]
                output := [] }
    else { status := some 0, dbg := d, trace := [], output := [] }

/-- `command_stepi` (commands/mod.rs:134-137): calls
`dbg.single_step_instruction_with_breakpoints()` and returns 0. -/
def command_stepi {D : Type} (api : DebuggerApi D) (_args : List String)
    (d : D) : HandlerResult D :=
  { status := some 0
    dbg := api.single_step_instruction_with_breakpoints d
    trace := [EngineOp.single_step_instruction_with_breakpoints]
    output := [] }

/-- One entry of the command table (commands/mod.rs:9-16). -/
structure Command (D : Type) where
  name : String
  help : String
  execute : List String → D → HandlerResult D

/-- `Command::map` (commands/mod.rs:43-93): the `FnvHashMap` of builtin
commands, embedded as an association list with distinct keys (only lookup
semantics are used).  The `insert_command!` macro stores each command under
its own `name`. -/
def Command.map {D : Type} (api : DebuggerApi D) : List (String × Command D) :=
  [("continue",
    { name := "continue"
      help := "Continue program being debugged, after signal or breakpoint."
      execute := command_continue api }),
   ("break",
    { name := "break"
      help := "Set breakpoint at specified location."
      execute := command_break api }),
   ("print",
    { name := "print"
      help := "Print value of expression EXP."
      execute := command_print api }),
   ("memory",
    { name := "memory"
      help := "Read or write to process memory."
      execute := command_memory api }),
   ("stepi",
    { name := "stepi"
      help := "Step one instruction exactly."
      execute := command_stepi api })]

/-- `CommandInterpreter` (command_interpreter.rs:13-16): the session's
debugger and its command table. -/
structure CommandInterpreter (D : Type) where
  debugger : D
  commands : List (String × Command D)

/-- `CommandInterpreter::new` (command_interpreter.rs:19-24). -/
def CommandInterpreter.new {D : Type} (api : DebuggerApi D) (d : D) :
    CommandInterpreter D :=
  { debugger := d, commands := Command.map api }

/-- `handle_unknown_command` (command_interpreter.rs:91-93): the diagnostic
line it prints. -/
def unknownCommandMsg (cmd : String) : String :=
  "Undefined command: " ++ quoteDebug cmd ++ ".  Try " ++ quoteDebug "help"

/-- The outcome of dispatching one already-split command line:
`next` is the interpreter afterwards, `out` the `println!` lines,
`invoked` the key of the executed table handler (`none` when no handler was
executed), `ops` the engine operations that ran. -/
structure StepOut (D : Type) where
  next : CommandInterpreter D
  out : List String
  invoked : Option String
  ops : List EngineOp

/-- `handle_command` (command_interpreter.rs:71-79): looks up `cmd[0]` in the
table; on a hit runs the handler on `&cmd[1..]` and prints the returned
status, otherwise prints the unknown-command diagnostic.  `none` models a
panic (empty `cmd`, or a panicking handler). -/
def CommandInterpreter.handle_command {D : Type} (self : CommandInterpreter D)
    (cmd : List String) : Option (StepOut D) :=
  match cmd with
  | [] => none
  | c0 :: args =>
    match List.lookup c0 self.commands with
    | some c =>
      let r := c.execute args self.debugger
      match r.status with
      | none => none
      | some s =>
        some { next := { debugger := r.dbg, commands := self.commands }
               out := r.output ++ [toString s]
               invoked := some c0
               ops := r.trace }
    | none =>
      some { next := self, out := [unknownCommandMsg c0], invoked := none
             ops := [] }

/-- `command_help` (command_interpreter.rs:81-89): called with the whole
split vector; with exactly one token it prints the generic help line, else it
prints the help of `args[1]` or the unknown-command diagnostic.  `none`
models the (unreachable from `read_line`) panic on a missing `args[1]`. -/
def CommandInterpreter.command_help {D : Type} (self : CommandInterpreter D)
    (args : List String) : Option (List String) :=
  if args.length = 1 then some ["This is the help message"]
  else
    match args[1]? with
    | none => none
    | some name =>
      match List.lookup name self.commands with
      | some c => some [c.help]
      | none => some [unknownCommandMsg name]

/-- Rust `str::split(' ')` over a character list: the pieces between the
occurrences of the separator, empty pieces preserved; the empty input yields
one empty piece. -/
def splitSpaces (cs : List Char) : List String :=
  match cs with
  | [] => [""]
  | c :: rest =>
    let r := splitSpaces rest
    if c = ' ' then "" :: r
    else
      match r with
      | [] => [String.mk [c]]
      | s :: ss => String.mk (c :: s.data) :: ss

/-- `let v: Vec<&str> = line.split(' ').collect()` (command_interpreter.rs:48);
always a non-empty list. -/
def splitLine (line : String) : List String :=
  splitSpaces line.data

/-- Result of the `Ok(line)` arm of the `read_line` loop
(command_interpreter.rs:44-57). -/
inductive LineResult (D : Type) where
  | quit (next : CommandInterpreter D)
  | ok (s : StepOut D)
  | panicked

/-- The body of the `Ok(line)` arm of `read_line`
(command_interpreter.rs:44-57): split on a single space; `quit` leaves the
loop, `help` goes to `command_help`, everything else to `handle_command`. -/
def CommandInterpreter.processLine {D : Type} (self : CommandInterpreter D)
    (line : String) : LineResult D :=
  match splitLine line with
  | [] => LineResult.panicked
  | t0 :: _ =>
    if t0 = "quit" then LineResult.quit self
    else if t0 = "help" then
      match self.command_help (splitLine line) with
      | none => LineResult.panicked
      | some out =>
        LineResult.ok { next := self, out := out, invoked := none, ops := [] }
    else
      match self.handle_command (splitLine line) with
      | none => LineResult.panicked
      | some s => LineResult.ok s

/-- A concrete engine instance over the trivial state, used to exercise the
handlers on closed inputs. -/
def api0 : DebuggerApi Unit where
  continue_execution := fun d => d
  set_breakpoint_at := fun _ d => d
  get_register_value := fun _ _ => 42
  read_memory := fun _ _ => some 7
  write_memory := fun _ _ d => d
  single_step_instruction_with_breakpoints := fun d => d

/-! ## Theorems -/

/-- Claim C3 (confirmed): the `memory read` handler, given an address token
that parses, calls `read_memory` with the parsed address (and only that
engine operation, leaving the debugger untouched); the `memory write`
handler, given an address token and a signed-integer value token that parse,
calls `write_memory(address, value)` with the parsed address and the value
parsed as a signed (`i64`) integer. -/
theorem command_memory_read_write_calls {D : Type} (api : DebuggerApi D)
    (d : D) :
    (∀ t a, u64_from_str t = some a →
      (command_memory api ["read", t] d).trace = [EngineOp.read_memory a] ∧
      (command_memory api ["read", t] d).dbg = d) ∧
    (∀ t1 a t2 v, u64_from_str t1 = some a → i64_from_str t2 = some v →
      (command_memory api ["write", t1, t2] d).trace =
        [EngineOp.write_memory a v] ∧
      (command_memory api ["write", t1, t2] d).dbg = api.write_memory a v d ∧
      (command_memory api ["write", t1, t2] d).status = some 0) := by
  constructor
  · intro t a h
    simp only [command_memory, h]
    cases api.read_memory a d <;> simp
  · intro t1 a t2 v h1 h2
    simp [command_memory, h1, h2]

/-- Witness for C3 at the concrete tokens `600` and `-5`. -/
theorem command_memory_read_write_calls_witness :
    (u64_from_str "600" = some 600 ∧ i64_from_str "-5" = some (-5)) ∧
    (command_memory api0 ["read", "600"] ()).trace =
      [EngineOp.read_memory 600] ∧
    (command_memory api0 ["write", "600", "-5"] ()).trace =
      [EngineOp.write_memory 600 (-5)] :=
  ⟨⟨by decide, by decide⟩,
   ((command_memory_read_write_calls api0 ()).1 "600" 600 (by decide)).1,
   ((command_memory_read_write_calls api0 ()).2 "600" 600 "-5" (-5)
     (by decide) (by decide)).1⟩

/-- Claim C4 (confirmed): on any non-empty argument list the `break` handler
parses the first token with `from_str_radix(_, 16)` — base 16, no prefix —
and, when the parse succeeds, calls `set_breakpoint_at` with exactly the
parsed address, returning status 0. -/
theorem command_break_sets_breakpoint {D : Type} (api : DebuggerApi D)
    (d : D) (t : String) (rest : List String) (a : Nat)
    (h : u64_from_str_radix 16 t = some a) :
    (command_break api (t :: rest) d).trace = [EngineOp.set_breakpoint_at a] ∧
    (command_break api (t :: rest) d).dbg = api.set_breakpoint_at a d ∧
    (command_break api (t :: rest) d).status = some 0 := by
  simp [command_break, h]

/-- Witness for C4 at the concrete prefixless token `401000`
(= 4198400). -/
theorem command_break_sets_breakpoint_witness :
    u64_from_str_radix 16 "401000" = some 4198400 ∧
    (command_break api0 ["401000"] ()).trace =
      [EngineOp.set_breakpoint_at 4198400] :=
  ⟨by decide,
   (command_break_sets_breakpoint api0 () "401000" [] 4198400 (by decide)).1⟩

/-- Claim C5 (confirmed): `command_print` takes no account of its arguments,
invokes exactly the register read of `Register::Rip` and no other engine
operation, leaves the debugger unchanged, prints the instruction-pointer
value, and returns 0. -/
theorem command_print_reports_rip {D : Type} (api : DebuggerApi D)
    (args : List String) (d : D) :
    (command_print api args d).trace =
      [EngineOp.get_register_value Register.Rip] ∧
    (command_print api args d).status = some 0 ∧
    (command_print api args d).dbg = d ∧
    (command_print api args d).output =
      ["RIP: " ++ quoteDebug (hexFormat (api.get_register_value Register.Rip d))] :=
  ⟨rfl, rfl, rfl, rfl⟩

/-- Claim C10 (confirmed): every entry of `Command::map` is self-consistent —
the command stored under key `k` has `name = k`. -/
theorem command_map_name_matches_key {D : Type} (api : DebuggerApi D)
    (k : String) (c : Command D)
    (h : List.lookup k (Command.map api) = some c) : c.name = k := by
  simp only [Command.map, List.lookup] at h
  repeat' split at h
  all_goals try (obtain rfl := Option.some.inj h)
  all_goals simp_all

/-- Witness for C10 at the key `print`. -/
theorem command_map_name_matches_key_witness :
    List.lookup "print" (Command.map api0) =
      some { name := "print", help := "Print value of expression EXP."
             execute := command_print api0 } ∧
    ({ name := "print", help := "Print value of expression EXP."
       execute := command_print api0 } : Command Unit).name = "print" :=
  ⟨rfl, command_map_name_matches_key api0 "print" _ rfl⟩

/-- Claim C1 counterexample: the claim "the handler rejects the input with a
typed error / failure status before any engine operation is invoked, and
never proceeds on garbage data or aborts (in particular `break`,
`memory read`, and `memory write` must not panic on unparsable or missing
arguments)" is false: `break` with the unparsable token `zz` panics
(`status = none` models the Rust panic of `.unwrap()`), `memory` with no
arguments panics on the `args[0]` index, and `memory read zz` panics on the
address parse. -/
theorem malformed_arguments_counterexample :
    (command_break api0 ["zz"] ()).status = none ∧
    (command_memory api0 [] ()).status = none ∧
    (command_memory api0 ["read", "zz"] ()).status = none :=
  ⟨rfl, rfl, rfl⟩

/-- Claim C1 (amended): `break` with zero argument tokens returns failure
status 1 without invoking any engine operation; every other malformed
invocation panics (aborts) rather than returning a typed failure — `break`
with an unparsable base-16 first token, `memory` with no tokens, with a
missing or unparsable address token after `read` or `write`, with a missing
value token after `write <address>`, or with an unparsable value token.  No
engine operation is invoked with garbage data in any of these cases (for a
missing `write` value the address parse may already have succeeded, but
`write_memory` is still not invoked). -/
theorem malformed_arguments_behavior {D : Type} (api : DebuggerApi D)
    (d : D) :
    ((command_break api [] d).status = some 1 ∧
      (command_break api [] d).trace = []) ∧
    (∀ t rest, u64_from_str_radix 16 t = none →
      (command_break api (t :: rest) d).status = none ∧
      (command_break api (t :: rest) d).trace = []) ∧
    ((command_memory api [] d).status = none ∧
      (command_memory api [] d).trace = []) ∧
    ((command_memory api ["read"] d).status = none ∧
      (command_memory api ["read"] d).trace = []) ∧
    (∀ t rest, u64_from_str t = none →
      (command_memory api ("read" :: t :: rest) d).status = none ∧
      (command_memory api ("read" :: t :: rest) d).trace = []) ∧
    ((command_memory api ["write"] d).status = none ∧
      (command_memory api ["write"] d).trace = []) ∧
    (∀ t1 rest, u64_from_str t1 = none →
      (command_memory api ("write" :: t1 :: rest) d).status = none ∧
      (command_memory api ("write" :: t1 :: rest) d).trace = []) ∧
    (∀ t1, (command_memory api ["write", t1] d).status = none ∧
      (command_memory api ["write", t1] d).trace = []) ∧
    (∀ t1 a t2 rest, u64_from_str t1 = some a → i64_from_str t2 = none →
      (command_memory api ("write" :: t1 :: t2 :: rest) d).status = none ∧
      (command_memory api ("write" :: t1 :: t2 :: rest) d).trace = []) := by
  refine ⟨⟨rfl, rfl⟩, ?_, ⟨rfl, rfl⟩, ?_, ?_, ?_, ?_, ?_, ?_⟩
  · intro t rest h
    simp [command_break, h]
  · simp [command_memory]
  · intro t rest h
    simp [command_memory, h]
  · simp [command_memory]
  · intro t1 rest h
    simp [command_memory, h]
  · intro t1
    cases h : u64_from_str t1 <;> simp [command_memory, h]
  · intro t1 a t2 rest h1 h2
    simp [command_memory, h1, h2]

/-- Witness for C1 (amended) at concrete malformed inputs. -/
theorem malformed_arguments_behavior_witness :
    (u64_from_str_radix 16 "zz" = none ∧ u64_from_str "zz" = none ∧
      u64_from_str "600" = some 600 ∧ i64_from_str "xx" = none) ∧
    (command_break api0 ["zz"] ()).trace = [] ∧
    (command_memory api0 ["read", "zz"] ()).trace = [] ∧
    (command_memory api0 ["write", "zz", "42"] ()).status = none ∧
    (command_memory api0 ["write", "600"] ()).status = none ∧
    (command_memory api0 ["write", "600", "xx"] ()).trace = [] :=
  ⟨⟨by decide, by decide, by decide, by decide⟩,
   ((malformed_arguments_behavior api0 ()).2.1 "zz" [] (by decide)).2,
   ((malformed_arguments_behavior api0 ()).2.2.2.2.1 "zz" [] (by decide)).2,
   ((malformed_arguments_behavior api0 ()).2.2.2.2.2.2.1 "zz" ["42"]
     (by decide)).1,
   ((malformed_arguments_behavior api0 ()).2.2.2.2.2.2.2.1 "600").1,
   ((malformed_arguments_behavior api0 ()).2.2.2.2.2.2.2.2 "600" 600 "xx" []
     (by decide) (by decide)).2⟩

/-- Claim C2 counterexample: the claim "a `memory` invocation whose first
token is neither `read` nor `write` may not return success having invoked no
engine operation" is false: `memory foo` returns status 0 having invoked no
engine operation. -/
theorem memory_unknown_subcommand_counterexample :
    (command_memory api0 ["foo"] ()).status = some 0 ∧
    (command_memory api0 ["foo"] ()).trace = [] :=
  ⟨rfl, rfl⟩

/-- Claim C2 (amended): every registered handler invoked with arguments
matching its grammar invokes exactly one engine operation — except that a
`memory` invocation whose first token is neither `read` nor `write` returns
success (status 0) having invoked no engine operation. -/
theorem grammatical_invocation_one_engine_op {D : Type} (api : DebuggerApi D)
    (d : D) :
    (command_continue api [] d).trace.length = 1 ∧
    (command_print api [] d).trace.length = 1 ∧
    (command_stepi api [] d).trace.length = 1 ∧
    (∀ t a, u64_from_str_radix 16 t = some a →
      (command_break api [t] d).trace.length = 1) ∧
    (∀ t a, u64_from_str t = some a →
      (command_memory api ["read", t] d).trace.length = 1) ∧
    (∀ t1 a t2 v, u64_from_str t1 = some a → i64_from_str t2 = some v →
      (command_memory api ["write", t1, t2] d).trace.length = 1) ∧
    (∀ t0, t0 ≠ "read" → t0 ≠ "write" →
      (command_memory api [t0] d).status = some 0 ∧
      (command_memory api [t0] d).trace = []) := by
  refine ⟨rfl, rfl, rfl, ?_, ?_, ?_, ?_⟩
  · intro t a h
    simp [command_break, h]
  · intro t a h
    simp only [command_memory, h]
    cases api.read_memory a d <;> simp
  · intro t1 a t2 v h1 h2
    simp [command_memory, h1, h2]
  · intro t0 h1 h2
    simp [command_memory, h1, h2]

/-- Witness for C2 (amended) at concrete grammatical and non-grammatical
inputs. -/
theorem grammatical_invocation_one_engine_op_witness :
    (u64_from_str_radix 16 "1f4" = some 500 ∧ u64_from_str "600" = some 600 ∧
      i64_from_str "-5" = some (-5)) ∧
    (command_break api0 ["1f4"] ()).trace.length = 1 ∧
    (command_memory api0 ["read", "600"] ()).trace.length = 1 ∧
    (command_memory api0 ["write", "600", "-5"] ()).trace.length = 1 ∧
    (command_memory api0 ["foo"] ()).trace = [] :=
  ⟨⟨by decide, by decide, by decide⟩,
   (grammatical_invocation_one_engine_op api0 ()).2.2.2.1 "1f4" 500 (by decide),
   (grammatical_invocation_one_engine_op api0 ()).2.2.2.2.1 "600" 600 (by decide),
   (grammatical_invocation_one_engine_op api0 ()).2.2.2.2.2.1 "600" 600 "-5" (-5)
     (by decide) (by decide),
   ((grammatical_invocation_one_engine_op api0 ()).2.2.2.2.2.2 "foo"
     (by decide) (by decide)).2⟩

/-- Claim C6 counterexample: the claim "no output is printed by the handler
itself" is false: `command_print` prints the `RIP: …` line and
`command_memory` prints the value read. -/
theorem engine_handler_prints_counterexample :
    (command_print api0 [] ()).output = ["RIP: " ++ quoteDebug "0x2a"] ∧
    (command_memory api0 ["read", "600"] ()).output = [quoteDebug "0x7"] :=
  ⟨rfl, rfl⟩

/-- Claim C6 (amended): the handlers `continue`, `break`, `stepi` and the
`memory write` path print nothing — their only observable effects are the
debugger mutation and the returned status — but `command_print` and the
`memory read` path print their result directly (`println!`) instead of
leaving presentation to the caller. -/
theorem handler_output_profile {D : Type} (api : DebuggerApi D)
    (args : List String) (d : D) :
    (command_continue api args d).output = [] ∧
    (command_break api args d).output = [] ∧
    (command_stepi api args d).output = [] ∧
    (∀ t1 t2 rest,
      (command_memory api ("write" :: t1 :: t2 :: rest) d).output = []) ∧
    (command_print api args d).output ≠ [] ∧
    (∀ t a v, u64_from_str t = some a → api.read_memory a d = some v →
      (command_memory api ["read", t] d).output = [quoteDebug (hexFormat v)]) := by
  refine ⟨rfl, ?_, rfl, ?_, by simp [command_print], ?_⟩
  · cases args with
    | nil => rfl
    | cons a0 rest =>
      cases h : u64_from_str_radix 16 a0 <;> simp [command_break, h]
  · intro t1 t2 rest
    cases h1 : u64_from_str t1 with
    | none => simp [command_memory, h1]
    | some a =>
      cases h2 : i64_from_str t2 <;> simp [command_memory, h1, h2]
  · intro t a v h1 h2
    simp [command_memory, h1, h2]

/-- Witness for C6 (amended) at concrete inputs. -/
theorem handler_output_profile_witness :
    (u64_from_str "600" = some 600 ∧ api0.read_memory 600 () = some 7) ∧
    (command_memory api0 ["write", "600", "-5"] ()).output = [] ∧
    (command_print api0 [] ()).output ≠ [] ∧
    (command_memory api0 ["read", "600"] ()).output = [quoteDebug (hexFormat 7)] :=
  ⟨⟨by decide, rfl⟩,
   (handler_output_profile api0 [] ()).2.2.2.1 "600" "-5" [],
   (handler_output_profile api0 [] ()).2.2.2.2.1,
   (handler_output_profile api0 [] ()).2.2.2.2.2 "600" 600 7 (by decide) rfl⟩

/-- Helper: `handle_command` never changes the command table. -/
theorem handle_command_preserves_commands {D : Type}
    (self : CommandInterpreter D) (cmd : List String) (s : StepOut D)
    (h : self.handle_command cmd = some s) :
    s.next.commands = self.commands := by
  simp only [CommandInterpreter.handle_command] at h
  repeat' split at h
  all_goals try (obtain rfl := Option.some.inj h)
  all_goals simp_all

/-- Helper: `handle_command` either panics or hits one of its two explicit
outcomes. -/
theorem handle_command_cases {D : Type} (self : CommandInterpreter D)
    (t : String) (rest : List String) (s : StepOut D)
    (h : self.handle_command (t :: rest) = some s) :
    (∃ c r, List.lookup t self.commands = some c ∧
      c.execute rest self.debugger = r ∧ ∃ st, r.status = some st ∧
      s = { next := { debugger := r.dbg, commands := self.commands }
            out := r.output ++ [toString st], invoked := some t
            ops := r.trace }) ∨
    (List.lookup t self.commands = none ∧
      s = { next := self, out := [unknownCommandMsg t], invoked := none
            ops := [] }) := by
  simp only [CommandInterpreter.handle_command] at h
  cases hl : List.lookup t self.commands with
  | none =>
    rw [hl] at h
    dsimp only at h
    obtain rfl := Option.some.inj h
    exact Or.inr ⟨rfl, rfl⟩
  | some c =>
    rw [hl] at h
    dsimp only at h
    cases hs : (c.execute rest self.debugger).status with
    | none =>
      rw [hs] at h
      exact absurd h (by simp)
    | some st =>
      rw [hs] at h
      dsimp only at h
      obtain rfl := Option.some.inj h
      exact Or.inl ⟨c, c.execute rest self.debugger, rfl, rfl, st, hs, rfl⟩

/-- Claim C7 (confirmed): the dispatch table is built once from the static
list in `Command::map` — its key list is exactly
`continue, break, print, memory, stepi` — `CommandInterpreter::new` installs
exactly that table, and processing a line never changes the `commands`
field. -/
theorem command_table_closed_and_static {D : Type} (api : DebuggerApi D)
    (d : D) :
    (CommandInterpreter.new api d).commands = Command.map api ∧
    (Command.map api).map Prod.fst =
      ["continue", "break", "print", "memory", "stepi"] ∧
    (∀ (self : CommandInterpreter D) (line : String) (s : StepOut D),
      self.processLine line = LineResult.ok s →
      s.next.commands = self.commands) ∧
    (∀ (self : CommandInterpreter D) (line : String)
      (next : CommandInterpreter D),
      self.processLine line = LineResult.quit next →
      next.commands = self.commands) := by
  refine ⟨rfl, rfl, ?_, ?_⟩
  · intro self line s h
    simp only [CommandInterpreter.processLine] at h
    split at h
    · exact absurd h (by simp)
    · split at h
      · exact absurd h (by simp)
      · split at h
        · split at h
          · exact absurd h (by simp)
          · injection h with h
            subst h
            rfl
        · split at h
          · exact absurd h (by simp)
          next s' hhc =>
            injection h with h
            subst h
            exact handle_command_preserves_commands self _ _ hhc
  · intro self line next h
    simp only [CommandInterpreter.processLine] at h
    split at h
    · exact absurd h (by simp)
    · split at h
      · injection h with h
        subst h
        rfl
      · split at h
        · split at h
          · exact absurd h (by simp)
          · exact absurd h (by simp)
        · split at h
          · exact absurd h (by simp)
          · exact absurd h (by simp)

/-- Witness for C7 at a concrete session and line. -/
theorem command_table_closed_and_static_witness :
    ((CommandInterpreter.new api0 ()).processLine "foo" =
      LineResult.ok { next := CommandInterpreter.new api0 ()
                      out := [unknownCommandMsg "foo"], invoked := none
                      ops := [] }) ∧
    ({ next := CommandInterpreter.new api0 ()
       out := [unknownCommandMsg "foo"], invoked := none
       ops := [] } : StepOut Unit).next.commands =
      (CommandInterpreter.new api0 ()).commands :=
  ⟨rfl, (command_table_closed_and_static api0 ()).2.2.1
    (CommandInterpreter.new api0 ()) "foo" _ rfl⟩

/-- Helper: the status of `command_break` is a panic, or 1 exactly on the
empty argument list and 0 otherwise. -/
theorem command_break_status {D : Type} (api : DebuggerApi D)
    (args : List String) (d : D) :
    (command_break api args d).status = none ∨
    (command_break api args d).status =
      some (if args = [] then 1 else 0) := by
  cases args with
  | nil => exact Or.inr rfl
  | cons a0 rest =>
    cases h : u64_from_str_radix 16 a0 <;> simp [command_break, h]

/-- Helper: the status of `command_memory` is a panic or 0. -/
theorem command_memory_status {D : Type} (api : DebuggerApi D)
    (args : List String) (d : D) :
    (command_memory api args d).status = none ∨
    (command_memory api args d).status = some 0 := by
  simp only [command_memory]
  repeat' split
  all_goals simp

/-- Claim C8 (confirmed): whenever a registered handler returns (does not
panic), its status is 0, except `break` on zero argument tokens, which
returns 1.  The engine interface `api` is universally quantified, so the
status never depends on the outcome of the engine operation invoked. -/
theorem handler_status_values {D : Type} (api : DebuggerApi D) (k : String)
    (c : Command D) (h : List.lookup k (Command.map api) = some c)
    (args : List String) (d : D) :
    (c.execute args d).status = none ∨
    (c.execute args d).status =
      some (if k = "break" ∧ args = [] then 1 else 0) := by
  simp only [Command.map, List.lookup] at h
  repeat' split at h
  all_goals try (obtain rfl := Option.some.inj h)
  · -- continue
    have hk : k = "continue" := by simp_all
    subst hk
    simp [command_continue]
  · -- break
    have hk : k = "break" := by simp_all
    subst hk
    rcases command_break_status api args d with hs | hs
    · exact Or.inl hs
    · refine Or.inr (hs.trans ?_)
      by_cases ha : args = [] <;> simp [ha]
  · -- print
    have hk : k = "print" := by simp_all
    subst hk
    simp [command_print]
  · -- memory
    have hk : k = "memory" := by simp_all
    subst hk
    rcases command_memory_status api args d with hs | hs
    · exact Or.inl hs
    · refine Or.inr (hs.trans ?_)
      simp
  · -- stepi
    have hk : k = "stepi" := by simp_all
    subst hk
    simp [command_stepi]
  · simp_all

/-- Witness for C8 at the key `continue` with no arguments. -/
theorem handler_status_values_witness :
    List.lookup "continue" (Command.map api0) =
      some { name := "continue"
             help := "Continue program being debugged, after signal or breakpoint."
             execute := command_continue api0 } ∧
    ((command_continue api0 [] ()).status = none ∨
      (command_continue api0 [] ()).status =
        some (if "continue" = "break" ∧ ([] : List String) = [] then 1 else 0)) :=
  ⟨rfl, handler_status_values api0 "continue" _ rfl [] ()⟩

/-- Claim C9 (confirmed): for an input line whose first space-separated
token is `quit` or `help`, or is not a key of the command table, no table
handler is executed (`invoked = none`, no engine operation runs) and the
interpreter — in particular the `Debugger` — is left unchanged; an
unrecognized command only produces the one diagnostic line. -/
theorem unknown_or_internal_token_no_dispatch {D : Type}
    (self : CommandInterpreter D) (line t : String) (rest : List String)
    (hsplit : splitLine line = t :: rest) :
    (t = "quit" → self.processLine line = LineResult.quit self) ∧
    (t = "help" → ∃ out, self.processLine line =
      LineResult.ok { next := self, out := out, invoked := none
                      ops := [] }) ∧
    (t ≠ "quit" → t ≠ "help" → List.lookup t self.commands = none →
      self.processLine line =
        LineResult.ok { next := self, out := [unknownCommandMsg t]
                        invoked := none, ops := [] }) := by
  refine ⟨?_, ?_, ?_⟩
  · intro ht
    subst ht
    simp [CommandInterpreter.processLine, hsplit]
  · intro ht
    subst ht
    cases rest with
    | nil =>
      exact ⟨["This is the help message"],
        by simp [CommandInterpreter.processLine, hsplit,
          CommandInterpreter.command_help]⟩
    | cons a1 rest2 =>
      cases hl : List.lookup a1 self.commands with
      | some c =>
        exact ⟨[c.help],
          by simp [CommandInterpreter.processLine, hsplit,
            CommandInterpreter.command_help, hl]⟩
      | none =>
        exact ⟨[unknownCommandMsg a1],
          by simp [CommandInterpreter.processLine, hsplit,
            CommandInterpreter.command_help, hl]⟩
  · intro hq hh hl
    simp [CommandInterpreter.processLine, hsplit, hq, hh,
      CommandInterpreter.handle_command, hl]

/-- Witness for C9 at the unrecognized line `foo` in a fresh session. -/
theorem unknown_or_internal_token_no_dispatch_witness :
    (splitLine "foo" = ["foo"] ∧
      List.lookup "foo" (CommandInterpreter.new api0 ()).commands = none) ∧
    (CommandInterpreter.new api0 ()).processLine "foo" =
      LineResult.ok { next := CommandInterpreter.new api0 ()
                      out := [unknownCommandMsg "foo"], invoked := none
                      ops := [] } :=
  ⟨⟨rfl, rfl⟩,
   (unknown_or_internal_token_no_dispatch (CommandInterpreter.new api0 ())
      "foo" "foo" [] rfl).2.2 (by decide) (by decide) rfl⟩

end Rdbg
